import Mathlib

/-!
Verification of the CDP script validation and execution engine
(`src/cdp/script.rs`, `src/cdp/validation.rs`, `src/cdp/executor.rs`).

The Rust code is shallowly embedded: `serde_json::Value` becomes the
inductive `Json` (numbers are modelled abstractly by `Int`; no claim
depends on numeric semantics, only on the JSON type tag), `HashMap` and
`serde_json::Map` become association lists with key lookup (key order is
irrelevant to every lookup-based check), `&mut ValidationResult` threading
becomes explicit state passing, `Duration` becomes a `Nat` (nanoseconds),
and the asynchronous browser session consumed by the executor becomes an
explicit outcome oracle.
-/

/-- Shallow embedding of `serde_json::Value`. -/
inductive Json where
  | null
  | bool (b : Bool)
  | num (n : Int)
  | str (s : String)
  | arr (elems : List Json)
  | obj (fields : List (String × Json))
deriving Repr

/-- `Value::as_object`: `some` fields exactly when the value is an object. -/
def Json.asObj : Json → Option (List (String × Json))
  | .obj fields => some fields
  | _ => none

/-- Key lookup in a JSON object / `HashMap` modelled as an association list
(`map.get(key)` / `map.contains_key(key)`). -/
def assocLookup {α : Type} : List (String × α) → String → Option α
  | [], _ => none
  | (k, v) :: rest, key => if k = key then some v else assocLookup rest key

/-- `map.contains_key(key)` for the association-list model. -/
def containsKey {α : Type} (fields : List (String × α)) (key : String) : Bool :=
  (assocLookup fields key).isSome

/-- `ParamType` from `validation.rs`. -/
inductive ParamType where
  | string
  | number
  | boolean
  | object
  | array
deriving DecidableEq, Repr

/-- Rust renders `ParamType` into messages with `{:?}`; this mirrors the
derived `Debug` output. -/
def ParamType.debugStr : ParamType → String
  | .string => "String"
  | .number => "Number"
  | .boolean => "Boolean"
  | .object => "Object"
  | .array => "Array"

/-- The JSON type tag used by `validate_parameters` (the `match param_value`
block); `none` for `Null`, which the loop `continue`s over. -/
def jsonTypeOf : Json → Option ParamType
  | .str _ => some .string
  | .num _ => some .number
  | .bool _ => some .boolean
  | .obj _ => some .object
  | .arr _ => some .array
  | .null => none

/-- `ValidationErrorType` from `validation.rs`. -/
inductive ValidationErrorType where
  | jsonSyntax
  | missingField
  | invalidValue
  | unknownCommand
  | invalidParameter
  | missingParameter
  | invalidStructure
  | typeMismatch
deriving DecidableEq, Repr

/-- `ErrorLocation` from `validation.rs`. -/
structure ErrorLocation where
  command_index : Option Nat
  field_path : String
  line : Option Nat
  column : Option Nat
deriving DecidableEq, Repr

/-- `ValidationError` from `validation.rs`. -/
structure ValidationError where
  error_type : ValidationErrorType
  message : String
  location : ErrorLocation
  suggestion : Option String
deriving DecidableEq, Repr

/-- `ValidationResult` from `validation.rs`. -/
structure ValidationResult where
  is_valid : Bool
  errors : List ValidationError
  warnings : List String
deriving DecidableEq, Repr

/-- `ValidationResult::success`. -/
def ValidationResult.success : ValidationResult :=
  { is_valid := true, errors := [], warnings := [] }

/-- `ValidationResult::add_error` (pushes the error and clears `is_valid`). -/
def ValidationResult.add_error (r : ValidationResult) (e : ValidationError) : ValidationResult :=
  { r with errors := r.errors ++ [e], is_valid := false }

/-- `ValidationResult::add_warning` (pushes the warning only). -/
def ValidationResult.add_warning (r : ValidationResult) (w : String) : ValidationResult :=
  { r with warnings := r.warnings ++ [w] }

/-- `CommandSchema` from `validation.rs`. -/
structure CommandSchema where
  required_params : List String
  optional_params : List String
  param_types : List (String × ParamType)
deriving DecidableEq, Repr

/-- `CdpValidator` from `validation.rs`. -/
structure CdpValidator where
  valid_commands : List String
  parameter_schemas : List (String × CommandSchema)
deriving Repr

/-- `CdpValidator::new`: the fixed registry, transcribed entry for entry. -/
def CdpValidator.new : CdpValidator :=
  { valid_commands := [
      "Page.navigate",
      "Page.captureScreenshot",
      "Page.reload",
      "Page.goBack",
      "Page.goForward",
      "Runtime.evaluate",
      "Input.insertText",
      "Input.dispatchMouseEvent",
      "Input.dispatchKeyEvent",
      "Network.getCookies",
      "Network.setCookie",
      "Network.deleteCookies",
      "Emulation.setGeolocationOverride",
      "Emulation.setDeviceMetricsOverride",
      "Emulation.clearGeolocationOverride"],
    parameter_schemas := [
      ("Page.navigate",
        { required_params := ["url"],
          optional_params := ["referrer", "transitionType", "frameId"],
          param_types := [
            ("url", .string),
            ("referrer", .string),
            ("transitionType", .string),
            ("frameId", .string)] }),
      ("Page.captureScreenshot",
        { required_params := [],
          optional_params := ["format", "quality", "clip", "captureBeyondViewport"],
          param_types := [
            ("format", .string),
            ("quality", .number),
            ("clip", .object),
            ("captureBeyondViewport", .boolean)] }),
      ("Runtime.evaluate",
        { required_params := ["expression"],
          optional_params := ["returnByValue", "awaitPromise", "userGesture"],
          param_types := [
            ("expression", .string),
            ("returnByValue", .boolean),
            ("awaitPromise", .boolean),
            ("userGesture", .boolean)] }),
      ("Input.insertText",
        { required_params := ["text"],
          optional_params := [],
          param_types := [("text", .string)] }),
      ("Input.dispatchMouseEvent",
        { required_params := ["type", "x", "y"],
          optional_params := ["button", "clickCount", "modifiers"],
          param_types := [
            ("type", .string),
            ("x", .number),
            ("y", .number),
            ("button", .string),
            ("clickCount", .number),
            ("modifiers", .number)] }),
      ("Input.dispatchKeyEvent",
        { required_params := ["type"],
          optional_params := ["key", "code", "text", "modifiers"],
          param_types := [
            ("type", .string),
            ("key", .string),
            ("code", .string),
            ("text", .string),
            ("modifiers", .number)] }),
      ("Network.setCookie",
        { required_params := ["name", "value"],
          optional_params := ["url", "domain", "path", "secure", "httpOnly", "expires"],
          param_types := [
            ("name", .string),
            ("value", .string),
            ("url", .string),
            ("domain", .string),
            ("path", .string),
            ("secure", .boolean),
            ("httpOnly", .boolean),
            ("expires", .number)] }),
      ("Network.deleteCookies",
        { required_params := ["name"],
          optional_params := ["url", "domain", "path"],
          param_types := [
            ("name", .string),
            ("url", .string),
            ("domain", .string),
            ("path", .string)] }),
      ("Emulation.setGeolocationOverride",
        { required_params := [],
          optional_params := ["latitude", "longitude", "accuracy"],
          param_types := [
            ("latitude", .number),
            ("longitude", .number),
            ("accuracy", .number)] }),
      ("Emulation.setDeviceMetricsOverride",
        { required_params := ["width", "height", "deviceScaleFactor", "mobile"],
          optional_params := ["screenWidth", "screenHeight", "screenOrientation"],
          param_types := [
            ("width", .number),
            ("height", .number),
            ("deviceScaleFactor", .number),
            ("mobile", .boolean),
            ("screenWidth", .number),
            ("screenHeight", .number),
            ("screenOrientation", .object)] })] }

/-- `CdpCommand` from `script.rs`. -/
structure CdpCommand where
  method : String
  params : Json
  save_as : Option String
  description : Option String
deriving Repr

/-- `CdpScript` from `script.rs`. -/
structure CdpScript where
  name : String
  description : String
  created : Option String
  author : Option String
  tags : List String
  cdp_commands : List CdpCommand
deriving Repr

/-- The message of the missing-required-parameter error
(`format!("Command {} ({}) missing required parameter {}", ...)`
with the parameter quoted in single quotes as in the source). -/
def missingParamMsg (index : Nat) (method p : String) : String :=
  s!"Command {index + 1} ({method}) missing required parameter '{p}'"

/-- The missing-required-parameter `ValidationError` built at
`validation.rs:535-550`. -/
def missingParamError (index : Nat) (method fieldPrefix p : String) : ValidationError :=
  { error_type := .missingParameter,
    message := missingParamMsg index method p,
    location := { command_index := some index,
                  field_path := fieldPrefix ++ ".params." ++ p,
                  line := none, column := none },
    suggestion := some s!"Add '{p}' parameter" }

/-- The type-mismatch `ValidationError` built at `validation.rs:567-584`. -/
def typeMismatchError (index : Nat) (method fieldPrefix p : String)
    (expected actual : ParamType) : ValidationError :=
  { error_type := .typeMismatch,
    message := s!"Command {index + 1} ({method}) parameter '{p}' has wrong type (expected {expected.debugStr}, got {actual.debugStr})",
    location := { command_index := some index,
                  field_path := fieldPrefix ++ ".params." ++ p,
                  line := none, column := none },
    suggestion := some s!"Change '{p}' to be a {expected.debugStr}" }

/-- The params-must-be-an-object `ValidationError` built at
`validation.rs:513-525`. -/
def paramsNotObjectError (index : Nat) (fieldPrefix : String) : ValidationError :=
  { error_type := .invalidStructure,
    message := s!"Command {index + 1} params must be an object",
    location := { command_index := some index,
                  field_path := fieldPrefix ++ ".params",
                  line := none, column := none },
    suggestion := some "Params should be a JSON object with key-value pairs" }

/-- The unknown-parameter pass-through warning built at `validation.rs:589-594`. -/
def unknownParamWarning (index : Nat) (method p : String) : String :=
  s!"Command {index + 1} ({method}) has unknown parameter '{p}' (will be passed through)"

/-- The `for required_param in &schema.required_params` loop of
`validate_parameters` (`validation.rs:533-552`). -/
def requiredParamsLoop (index : Nat) (method fieldPrefix : String)
    (params : List (String × Json)) : List String → ValidationResult → ValidationResult
  | [], r => r
  | p :: rest, r =>
      requiredParamsLoop index method fieldPrefix params rest
        (if containsKey params p then r
         else r.add_error (missingParamError index method fieldPrefix p))

/-- The `for (param_name, param_value) in params.iter()` loop of
`validate_parameters` (`validation.rs:555-596`). -/
def paramEntriesLoop (schema : CommandSchema) (index : Nat) (method fieldPrefix : String) :
    List (String × Json) → ValidationResult → ValidationResult
  | [], r => r
  | entry :: rest, r =>
      paramEntriesLoop schema index method fieldPrefix rest
        (match assocLookup schema.param_types entry.1 with
         | some expected =>
             match jsonTypeOf entry.2 with
             | none => r
             | some actual =>
                 if actual ≠ expected then
                   r.add_error (typeMismatchError index method fieldPrefix entry.1 expected actual)
                 else r
         | none =>
             if ¬ schema.required_params.contains entry.1
                 ∧ ¬ schema.optional_params.contains entry.1 then
               r.add_warning (unknownParamWarning index method entry.1)
             else r)

/-- `CdpValidator::validate_parameters` (`validation.rs:501-597`): the two
`for` loops become the two recursive passes above. -/
def CdpValidator.validate_parameters (cmd : CdpCommand) (schema : CommandSchema)
    (index : Nat) (fieldPrefix : String) (result : ValidationResult) : ValidationResult :=
  match cmd.params.asObj with
  | none =>
      if schema.required_params.isEmpty then result
      else result.add_error (paramsNotObjectError index fieldPrefix)
  | some params =>
      paramEntriesLoop schema index cmd.method fieldPrefix params
        (requiredParamsLoop index cmd.method fieldPrefix params schema.required_params result)

/-- The empty-method `ValidationError` built at `validation.rs:440-450`. -/
def emptyMethodError (index : Nat) (fieldPrefix : String) : ValidationError :=
  { error_type := .missingField,
    message := s!"Command {index + 1} has empty method name",
    location := { command_index := some index,
                  field_path := fieldPrefix ++ ".method",
                  line := none, column := none },
    suggestion := some "Specify a CDP method in Domain.method format" }

/-- The bad-method-format `ValidationError` built at `validation.rs:455-471`. -/
def methodFormatError (index : Nat) (fieldPrefix method : String) : ValidationError :=
  { error_type := .invalidValue,
    message := s!"Command {index + 1} has invalid method '{method}' (must be Domain.method format)",
    location := { command_index := some index,
                  field_path := fieldPrefix ++ ".method",
                  line := none, column := none },
    suggestion := some "Use format like 'Page.navigate' or 'Runtime.evaluate'" }

/-- The unknown-command `ValidationError` built at `validation.rs:477-490`. -/
def unknownCommandError (v : CdpValidator) (index : Nat) (fieldPrefix method : String) : ValidationError :=
  let supported := String.intercalate ", " v.valid_commands
  { error_type := .unknownCommand,
    message := s!"Unknown CDP command: {method}",
    location := { command_index := some index,
                  field_path := fieldPrefix ++ ".method",
                  line := none, column := none },
    suggestion := some s!"Supported commands: {supported}" }

/-- `CdpValidator::validate_command` (`validation.rs:430-498`): the three
early returns become nested conditionals. -/
def CdpValidator.validate_command (v : CdpValidator) (cmd : CdpCommand)
    (index : Nat) (result : ValidationResult) : ValidationResult :=
  let fieldPrefix := s!"cdp_commands[{index}]"
  if cmd.method.isEmpty then
    result.add_error (emptyMethodError index fieldPrefix)
  else if ¬ cmd.method.toList.contains '.' then
    result.add_error (methodFormatError index fieldPrefix cmd.method)
  else if ¬ v.valid_commands.contains cmd.method then
    result.add_error (unknownCommandError v index fieldPrefix cmd.method)
  else
    match assocLookup v.parameter_schemas cmd.method with
    | some schema => CdpValidator.validate_parameters cmd schema index fieldPrefix result
    | none => result

/-- The empty-name `ValidationError` built at `validation.rs:380-390`. -/
def nameMissingError : ValidationError :=
  { error_type := .missingField,
    message := "Script name is required and cannot be empty",
    location := { command_index := none, field_path := "name",
                  line := none, column := none },
    suggestion := some "Add a descriptive name for your script" }

/-- The empty-command-list `ValidationError` built at `validation.rs:409-419`. -/
def commandsMissingError : ValidationError :=
  { error_type := .missingField,
    message := "Script must contain at least one command",
    location := { command_index := none, field_path := "cdp_commands",
                  line := none, column := none },
    suggestion := some "Add at least one CDP command to the script" }

/-- The per-command loop at `validation.rs:424-426`, folding
`validate_command` over the enumerated command list. -/
def validateCommandsFrom (v : CdpValidator) : List CdpCommand → Nat → ValidationResult → ValidationResult
  | [], _, result => result
  | cmd :: rest, index, result =>
      validateCommandsFrom v rest (index + 1) (v.validate_command cmd index result)

/-- `CdpValidator::validate_script` (`validation.rs:377-427`). -/
def CdpValidator.validate_script (v : CdpValidator) (script : CdpScript)
    (result : ValidationResult) : ValidationResult :=
  let result :=
    if script.name.isEmpty then
      result.add_error nameMissingError
    else if ¬ script.name.toList.all (fun c => c.isAlphanum ∨ c = '-' ∨ c = '_') then
      result.add_warning "Script name should only contain alphanumeric characters, hyphens, and underscores"
    else result
  let result :=
    if script.description.isEmpty then
      result.add_warning "Script description is empty"
    else result
  if script.cdp_commands.isEmpty then
    result.add_error commandsMissingError
  else
    validateCommandsFrom v script.cdp_commands 0 result

/-- Serialization of `CdpCommand` (serde derive on `script.rs:35-50`): fields
in declaration order; `save_as` and `description` are skipped when `None`
(`skip_serializing_if = "Option::is_none"`). -/
def CdpCommand.toJson (c : CdpCommand) : Json :=
  .obj ([("method", .str c.method), ("params", c.params)]
    ++ (match c.save_as with
        | none => []
        | some s => [("save_as", Json.str s)])
    ++ (match c.description with
        | none => []
        | some d => [("description", Json.str d)]))

/-- Serialization of `CdpScript` (serde derive on `script.rs:10-32`): fields
in declaration order; `created` and `author` are skipped when `None`, `tags`
is skipped when empty (`skip_serializing_if = "Vec::is_empty"`). -/
def CdpScript.toJson (s : CdpScript) : Json :=
  .obj ([("name", .str s.name), ("description", .str s.description)]
    ++ (match s.created with
        | none => []
        | some c => [("created", Json.str c)])
    ++ (match s.author with
        | none => []
        | some a => [("author", Json.str a)])
    ++ (match s.tags with
        | [] => []
        | ts => [("tags", Json.arr (ts.map Json.str))])
    ++ [("cdp_commands", Json.arr (s.cdp_commands.map CdpCommand.toJson))])

/-- Deserialization of an `Option<String>` field: absent or `null` gives
`None`, a string gives `Some`, anything else is a type error (serde derive
semantics). -/
def parseOptString (fields : List (String × Json)) (key : String) : Option (Option String) :=
  match assocLookup fields key with
  | none => some none
  | some .null => some none
  | some (.str s) => some (some s)
  | some _ => none

/-- Deserialization of `CdpCommand` (serde derive): `method` must be a
string, `params` any value, `save_as` / `description` optional strings;
unknown fields are ignored. -/
def CdpCommand.fromJson (j : Json) : Option CdpCommand :=
  match j with
  | .obj fields =>
      match assocLookup fields "method", assocLookup fields "params",
            parseOptString fields "save_as", parseOptString fields "description" with
      | some (.str m), some p, some sa, some d =>
          some { method := m, params := p, save_as := sa, description := d }
      | _, _, _, _ => none
  | _ => none

/-- Deserialization of `Vec<CdpCommand>` element by element. -/
def parseCommandList : List Json → Option (List CdpCommand)
  | [] => some []
  | j :: rest =>
      match CdpCommand.fromJson j, parseCommandList rest with
      | some c, some cs => some (c :: cs)
      | _, _ => none

/-- Deserialization of `Vec<String>` element by element. -/
def parseStringList : List Json → Option (List String)
  | [] => some []
  | .str s :: rest =>
      match parseStringList rest with
      | some ss => some (s :: ss)
      | none => none
  | _ :: _ => none

/-- Deserialization of the `tags` field (`#[serde(default)]`): absent gives
the empty list; present must be an array of strings. -/
def parseTags (fields : List (String × Json)) : Option (List String) :=
  match assocLookup fields "tags" with
  | none => some []
  | some (.arr elems) => parseStringList elems
  | some _ => none

/-- Deserialization of `CdpScript` (serde derive): `name`, `description`
strings, `created` / `author` optional strings, `tags` defaulted,
`cdp_commands` an array of commands. -/
def CdpScript.fromJson (j : Json) : Option CdpScript :=
  match j with
  | .obj fields =>
      match assocLookup fields "name", assocLookup fields "description",
            parseOptString fields "created", parseOptString fields "author",
            parseTags fields, assocLookup fields "cdp_commands" with
      | some (.str n), some (.str d), some cr, some au, some ts, some (.arr cmds) =>
          match parseCommandList cmds with
          | some cs => some { name := n, description := d, created := cr,
                              author := au, tags := ts, cdp_commands := cs }
          | none => none
      | _, _, _, _, _, _ => none
  | _ => none

/-- `CdpScript::validate` (`script.rs:130-154`): the structural sanity check,
with the `bail!` messages of the source. -/
def validateMethodsFrom : List CdpCommand → Nat → Except String Unit
  | [], _ => .ok ()
  | cmd :: rest, i =>
      if cmd.method.isEmpty then
        .error s!"Command {i + 1} has empty method"
      else if ¬ cmd.method.toList.contains '.' then
        .error s!"Command {i + 1} has invalid method '{cmd.method}' (must be Domain.method format)"
      else validateMethodsFrom rest (i + 1)

/-- `CdpScript::validate` entry point (`script.rs:130-154`). -/
def CdpScript.validate (s : CdpScript) : Except String Unit :=
  if s.name.isEmpty then
    .error "Script name cannot be empty"
  else if s.cdp_commands.isEmpty then
    .error "Script must contain at least one command"
  else validateMethodsFrom s.cdp_commands 0

/-- `CommandStatus` from `script.rs`. -/
inductive CommandStatus where
  | success
  | failed
  | skipped
deriving DecidableEq, Repr

/-- `CommandResult` from `script.rs` (`Duration` modelled as nanoseconds). -/
structure CommandResult where
  step : Nat
  method : String
  status : CommandStatus
  duration : Nat
  response : Option Json
  error : Option String
  saved_file : Option String
deriving Repr

/-- `ExecutionReport` from `script.rs`. -/
structure ExecutionReport where
  script_name : String
  total_commands : Nat
  successful : Nat
  failed : Nat
  skipped : Nat
  total_duration : Nat
  results : List CommandResult
deriving Repr

/-- `ExecutionReport::new` (`script.rs:159-169`). -/
def ExecutionReport.new (script_name : String) (total_commands : Nat) : ExecutionReport :=
  { script_name := script_name, total_commands := total_commands,
    successful := 0, failed := 0, skipped := 0, total_duration := 0, results := [] }

/-- `ExecutionReport::add_result` (`script.rs:172-182`). -/
def ExecutionReport.add_result (rep : ExecutionReport) (result : CommandResult) : ExecutionReport :=
  { rep with
    total_duration := rep.total_duration + result.duration,
    successful := rep.successful + (if result.status = .success then 1 else 0),
    failed := rep.failed + (if result.status = .failed then 1 else 0),
    skipped := rep.skipped + (if result.status = .skipped then 1 else 0),
    results := rep.results ++ [result] }

/-- `ExecutionReport::is_success` (`script.rs:185-187`). -/
def ExecutionReport.is_success (rep : ExecutionReport) : Bool :=
  rep.failed = 0 ∧ rep.successful = rep.total_commands

/-- Outcome of one `execute_command` call, as observed by the
`execute_script` loop: the dispatch result together with the elapsed
wall-clock duration measured around the call (`executor.rs:42-70`). -/
inductive CmdOutcome where
  | ok (response : Json) (savedFile : Option String) (duration : Nat)
  | err (msg : String) (duration : Nat)
deriving Repr

/-- Whether the outcome is the `Ok` arm. -/
def CmdOutcome.isOk : CmdOutcome → Bool
  | .ok _ _ _ => true
  | .err _ _ => false

/-- `CdpExecutor::execute_command` (`executor.rs:80-113`): the dispatch
table. The per-method typed handlers perform protocol I/O and are abstracted
by the oracle `run`, invoked exactly on the fourteen method strings that have
a `match` arm; any other method fails with the `Unsupported CDP method`
error. -/
def executeCommand (run : String → CdpCommand → Except String (Json × Option String))
    (cmd : CdpCommand) : Except String (Json × Option String) :=
  match cmd.method with
  | "Page.navigate" => run "Page.navigate" cmd
  | "Page.captureScreenshot" => run "Page.captureScreenshot" cmd
  | "Page.reload" => run "Page.reload" cmd
  | "Page.goBack" => run "Page.goBack" cmd
  | "Page.goForward" => run "Page.goForward" cmd
  | "Runtime.evaluate" => run "Runtime.evaluate" cmd
  | "Input.insertText" => run "Input.insertText" cmd
  | "Input.dispatchMouseEvent" => run "Input.dispatchMouseEvent" cmd
  | "Input.dispatchKeyEvent" => run "Input.dispatchKeyEvent" cmd
  | "Network.getCookies" => run "Network.getCookies" cmd
  | "Network.setCookie" => run "Network.setCookie" cmd
  | "Network.deleteCookies" => run "Network.deleteCookies" cmd
  | "Emulation.setGeolocationOverride" => run "Emulation.setGeolocationOverride" cmd
  | "Emulation.setDeviceMetricsOverride" => run "Emulation.setDeviceMetricsOverride" cmd
  | _ => .error ("Unsupported CDP method: " ++ cmd.method)

/-- Whether `execute_command` dispatches `method` to a handler rather than
falling through to the `Unsupported CDP method` arm (probed with a handler
oracle that always succeeds). -/
def hasHandler (method : String) : Bool :=
  match executeCommand (fun _ _ => .ok (Json.null, none))
      { method := method, params := Json.null, save_as := none, description := none } with
  | .ok _ => true
  | .error _ => false

/-- The `for (i, cmd) in ... enumerate()` loop of `execute_script`
(`executor.rs:40-72`): `exec i cmd` is the observed outcome of
`self.execute_command(cmd)` at 0-based index `i` (the session is stateful,
so the outcome may depend on the position in the run); on an `Err` outcome a
`Failed` result is recorded and the loop `break`s. -/
def runCommands (exec : Nat → CdpCommand → CmdOutcome) :
    List CdpCommand → Nat → ExecutionReport → ExecutionReport
  | [], _, report => report
  | cmd :: rest, i, report =>
      match exec i cmd with
      | .ok response savedFile duration =>
          runCommands exec rest (i + 1) (report.add_result
            { step := i + 1, method := cmd.method, status := .success,
              duration := duration, response := some response,
              error := none, saved_file := savedFile })
      | .err msg duration =>
          report.add_result
            { step := i + 1, method := cmd.method, status := .failed,
              duration := duration, response := none,
              error := some msg, saved_file := none }

/-- `CdpExecutor::execute_script` (`executor.rs:34-75`): re-run structural
validation, then fold the loop from a fresh report. -/
def executeScript (exec : Nat → CdpCommand → CmdOutcome) (script : CdpScript) :
    Except String ExecutionReport :=
  match script.validate with
  | .error e => .error e
  | .ok () =>
      .ok (runCommands exec script.cdp_commands 0
        (ExecutionReport.new script.name script.cdp_commands.length))

/-- The errors produced by the required-parameter loop of
`validate_parameters`, as a list: one `MissingParameter` error per required
parameter absent from `params`, in schema order. -/
def missingParamErrors (schema : CommandSchema) (index : Nat) (method fieldPrefix : String)
    (params : List (String × Json)) : List ValidationError :=
  (schema.required_params.filter (fun p => !(containsKey params p))).map
    (missingParamError index method fieldPrefix)

/-- The errors produced by the type-check loop of `validate_parameters`, as a
list: one `TypeMismatch` error per declared, non-null parameter entry whose
JSON type disagrees with the schema. -/
def typeCheckErrors (schema : CommandSchema) (index : Nat) (method fieldPrefix : String) :
    List (String × Json) → List ValidationError
  | [] => []
  | entry :: rest =>
      match assocLookup schema.param_types entry.1 with
      | some expected =>
          match jsonTypeOf entry.2 with
          | none => typeCheckErrors schema index method fieldPrefix rest
          | some actual =>
              if actual ≠ expected then
                typeMismatchError index method fieldPrefix entry.1 expected actual
                  :: typeCheckErrors schema index method fieldPrefix rest
              else typeCheckErrors schema index method fieldPrefix rest
      | none => typeCheckErrors schema index method fieldPrefix rest

/-- The warnings produced by the type-check loop of `validate_parameters`, as
a list: one pass-through warning per entry that has no declared type and is
neither required nor optional. -/
def unknownParamWarnings (schema : CommandSchema) (index : Nat) (method : String) :
    List (String × Json) → List String
  | [] => []
  | entry :: rest =>
      match assocLookup schema.param_types entry.1 with
      | some _ => unknownParamWarnings schema index method rest
      | none =>
          if ¬ schema.required_params.contains entry.1
              ∧ ¬ schema.optional_params.contains entry.1 then
            unknownParamWarning index method entry.1 :: unknownParamWarnings schema index method rest
          else unknownParamWarnings schema index method rest

/-- Whether the outcome oracle succeeds at position `j` of the command list
(vacuously true past the end); a decidable reformulation of the
`execute_command` success hypothesis. -/
def okAt (exec : Nat → CdpCommand → CmdOutcome) (cmds : List CdpCommand) (j : Nat) : Bool :=
  match cmds.get? j with
  | some c => (exec j c).isOk
  | none => true

/-- The registry schema of a method, defaulted to the empty schema (used only
to name registry entries in concrete statements). -/
def schemaOf (method : String) : CommandSchema :=
  (assocLookup CdpValidator.new.parameter_schemas method).getD
    { required_params := [], optional_params := [], param_types := [] }

/-- Concrete command: the registry method without an executor handler. -/
def clearGeoCmd : CdpCommand :=
  { method := "Emulation.clearGeolocationOverride", params := Json.obj [],
    save_as := none, description := none }

/-- Concrete script whose name and command list are both empty. -/
def emptyBothScript : CdpScript :=
  { name := "", description := "x", created := none, author := none,
    tags := [], cdp_commands := [] }

/-- Concrete script with a non-empty name and no commands. -/
def noCommandsScript : CdpScript :=
  { name := "t", description := "", created := none, author := none,
    tags := [], cdp_commands := [] }

/-- Concrete mouse-event command with empty params (three required
parameters missing). -/
def mouseCmd : CdpCommand :=
  { method := "Input.dispatchMouseEvent", params := Json.obj [],
    save_as := none, description := none }

/-- Concrete navigation command whose `url` has the wrong type and whose
`referrer` is null. -/
def navBadCmd : CdpCommand :=
  { method := "Page.navigate",
    params := Json.obj [("url", Json.num 1), ("referrer", Json.null)],
    save_as := none, description := none }

/-- Concrete navigation command with one undeclared extra parameter. -/
def navExtraCmd : CdpCommand :=
  { method := "Page.navigate",
    params := Json.obj [("url", Json.str "https://example.com"), ("foo", Json.num 1)],
    save_as := none, description := none }

/-- Concrete screenshot command whose params is a string, not an object. -/
def screenshotStrCmd : CdpCommand :=
  { method := "Page.captureScreenshot", params := Json.str "not-an-object",
    save_as := none, description := none }

/-- Concrete script wrapping `screenshotStrCmd`. -/
def screenshotStrScript : CdpScript :=
  { name := "t", description := "d", created := none, author := none,
    tags := [], cdp_commands := [screenshotStrCmd] }

/-- Concrete three-command script for the execution stop law. -/
def demoScript3 : CdpScript :=
  { name := "t", description := "d", created := none, author := none,
    tags := [],
    cdp_commands :=
      [{ method := "Page.navigate", params := Json.obj [("url", Json.str "http://x")],
         save_as := none, description := none },
       { method := "Page.reload", params := Json.obj [], save_as := none, description := none },
       { method := "Runtime.evaluate", params := Json.obj [("expression", Json.str "1+1")],
         save_as := none, description := none }] }

/-- Concrete outcome oracle that fails at the second command (0-based
index 1) and succeeds elsewhere. -/
def demoExecFail2 (i : Nat) (_ : CdpCommand) : CmdOutcome :=
  if i = 1 then .err "boom" 5 else .ok Json.null none 7

/-- Concrete script for the serialization round trip. -/
def demoScriptFull : CdpScript :=
  { name := "full", description := "d", created := some "2025-01-01T00:00:00Z",
    author := some "a", tags := ["x", "y"],
    cdp_commands :=
      [{ method := "Page.navigate", params := Json.obj [("url", Json.str "http://x")],
         save_as := some "out.json", description := some "go" }] }

@[simp] lemma add_error_errors (r : ValidationResult) (e : ValidationError) :
    (r.add_error e).errors = r.errors ++ [e] := rfl

@[simp] lemma add_error_warnings (r : ValidationResult) (e : ValidationError) :
    (r.add_error e).warnings = r.warnings := rfl

@[simp] lemma add_error_is_valid (r : ValidationResult) (e : ValidationError) :
    (r.add_error e).is_valid = false := rfl

@[simp] lemma add_warning_errors (r : ValidationResult) (w : String) :
    (r.add_warning w).errors = r.errors := rfl

@[simp] lemma add_warning_warnings (r : ValidationResult) (w : String) :
    (r.add_warning w).warnings = r.warnings ++ [w] := rfl

@[simp] lemma add_warning_is_valid (r : ValidationResult) (w : String) :
    (r.add_warning w).is_valid = r.is_valid := rfl

lemma strAppendCancel (a : String) {b c : String} (h : a ++ b = a ++ c) : b = c := by
  have hd := congrArg String.data h
  simp only [String.data_append] at hd
  have h2 := List.append_cancel_left hd
  cases b; cases c
  simp only at h2
  rw [h2]

lemma requiredParamsLoop_errors (index : Nat) (method fieldPrefix : String)
    (params : List (String × Json)) :
    ∀ (l : List String) (r : ValidationResult),
      (requiredParamsLoop index method fieldPrefix params l r).errors
        = r.errors ++ (l.filter (fun p => !(containsKey params p))).map
            (missingParamError index method fieldPrefix) := by
  intro l
  induction l with
  | nil => intro r; simp [requiredParamsLoop]
  | cons p rest ih =>
      intro r
      by_cases hp : containsKey params p
      · simp [requiredParamsLoop, hp, ih]
      · simp [requiredParamsLoop, hp, ih]

lemma requiredParamsLoop_warnings (index : Nat) (method fieldPrefix : String)
    (params : List (String × Json)) :
    ∀ (l : List String) (r : ValidationResult),
      (requiredParamsLoop index method fieldPrefix params l r).warnings = r.warnings := by
  intro l
  induction l with
  | nil => intro r; simp [requiredParamsLoop]
  | cons p rest ih =>
      intro r
      by_cases hp : containsKey params p
      · simp [requiredParamsLoop, hp, ih]
      · simp [requiredParamsLoop, hp, ih]

lemma paramEntriesLoop_errors (schema : CommandSchema) (index : Nat) (method fieldPrefix : String) :
    ∀ (ps : List (String × Json)) (r : ValidationResult),
      (paramEntriesLoop schema index method fieldPrefix ps r).errors
        = r.errors ++ typeCheckErrors schema index method fieldPrefix ps := by
  intro ps
  induction ps with
  | nil => intro r; simp [paramEntriesLoop, typeCheckErrors]
  | cons entry rest ih =>
      intro r
      simp only [paramEntriesLoop, typeCheckErrors]
      cases hl : assocLookup schema.param_types entry.1 with
      | none =>
          by_cases hw : entry.1 ∉ schema.required_params ∧ entry.1 ∉ schema.optional_params
          · simp [hl, hw, ih]
          · simp [hl, hw, ih]
      | some expected =>
          cases ht : jsonTypeOf entry.2 with
          | none => simp [hl, ht, ih]
          | some actual =>
              by_cases hne : actual ≠ expected
              · simp [hl, ht, hne, ih]
              · simp [hl, ht, hne, ih]

lemma paramEntriesLoop_warnings (schema : CommandSchema) (index : Nat) (method fieldPrefix : String) :
    ∀ (ps : List (String × Json)) (r : ValidationResult),
      (paramEntriesLoop schema index method fieldPrefix ps r).warnings
        = r.warnings ++ unknownParamWarnings schema index method ps := by
  intro ps
  induction ps with
  | nil => intro r; simp [paramEntriesLoop, unknownParamWarnings]
  | cons entry rest ih =>
      intro r
      simp only [paramEntriesLoop, unknownParamWarnings]
      cases hl : assocLookup schema.param_types entry.1 with
      | none =>
          by_cases hw : entry.1 ∉ schema.required_params ∧ entry.1 ∉ schema.optional_params
          · simp [hl, hw, ih]
          · simp [hl, hw, ih]
      | some expected =>
          cases ht : jsonTypeOf entry.2 with
          | none => simp [hl, ht, ih]
          | some actual =>
              by_cases hne : actual ≠ expected
              · simp [hl, ht, hne, ih]
              · simp [hl, ht, hne, ih]

lemma validate_parameters_errors (cmd : CdpCommand) (schema : CommandSchema)
    (index : Nat) (fieldPrefix : String) (result : ValidationResult)
    (params : List (String × Json)) (h : cmd.params.asObj = some params) :
    (CdpValidator.validate_parameters cmd schema index fieldPrefix result).errors
      = result.errors
        ++ missingParamErrors schema index cmd.method fieldPrefix params
        ++ typeCheckErrors schema index cmd.method fieldPrefix params := by
  unfold CdpValidator.validate_parameters
  rw [h]
  rw [paramEntriesLoop_errors, requiredParamsLoop_errors]
  simp [missingParamErrors, List.append_assoc]

lemma validate_parameters_warnings (cmd : CdpCommand) (schema : CommandSchema)
    (index : Nat) (fieldPrefix : String) (result : ValidationResult)
    (params : List (String × Json)) (h : cmd.params.asObj = some params) :
    (CdpValidator.validate_parameters cmd schema index fieldPrefix result).warnings
      = result.warnings ++ unknownParamWarnings schema index cmd.method params := by
  unfold CdpValidator.validate_parameters
  rw [h]
  rw [paramEntriesLoop_warnings, requiredParamsLoop_warnings]

lemma mem_missingParamErrors_intro {schema : CommandSchema} {index : Nat}
    {method fieldPrefix : String} {params : List (String × Json)} {p : String}
    (hp : p ∈ schema.required_params) (habs : containsKey params p = false) :
    missingParamError index method fieldPrefix p
      ∈ missingParamErrors schema index method fieldPrefix params := by
  unfold missingParamErrors
  exact List.mem_map_of_mem _ (List.mem_filter.2 ⟨hp, by simp [habs]⟩)

lemma mem_missingParamErrors_elim {schema : CommandSchema} {index : Nat}
    {method fieldPrefix : String} {params : List (String × Json)} {e : ValidationError}
    (he : e ∈ missingParamErrors schema index method fieldPrefix params) :
    ∃ p, p ∈ schema.required_params ∧ containsKey params p = false
      ∧ e = missingParamError index method fieldPrefix p := by
  unfold missingParamErrors at he
  obtain ⟨p, hp, rfl⟩ := List.mem_map.1 he
  obtain ⟨hmem, hflt⟩ := List.mem_filter.1 hp
  exact ⟨p, hmem, by simpa using hflt, rfl⟩

lemma mem_typeCheckErrors_intro {schema : CommandSchema} {index : Nat}
    {method fieldPrefix : String} {p : String} {v : Json} {expected actual : ParamType} :
    ∀ {ps : List (String × Json)}, (p, v) ∈ ps →
      assocLookup schema.param_types p = some expected →
      jsonTypeOf v = some actual → actual ≠ expected →
      typeMismatchError index method fieldPrefix p expected actual
        ∈ typeCheckErrors schema index method fieldPrefix ps := by
  intro ps
  induction ps with
  | nil => intro h; cases h
  | cons entry rest ih =>
      intro hmem hl ht hne
      rcases List.mem_cons.1 hmem with heq | hrest
      · subst heq
        simp only [typeCheckErrors, hl, ht, if_pos hne]
        exact List.mem_cons_self _ _
      · have hrec := ih hrest hl ht hne
        unfold typeCheckErrors
        cases hl2 : assocLookup schema.param_types entry.1 with
        | none => exact hrec
        | some exp2 =>
            cases ht2 : jsonTypeOf entry.2 with
            | none => exact hrec
            | some act2 =>
                by_cases hne2 : act2 ≠ exp2
                · simp only [if_pos hne2]
                  exact List.mem_cons_of_mem _ hrec
                · simp only [if_neg hne2]
                  exact hrec

lemma mem_typeCheckErrors_elim {schema : CommandSchema} {index : Nat}
    {method fieldPrefix : String} {e : ValidationError} :
    ∀ {ps : List (String × Json)}, e ∈ typeCheckErrors schema index method fieldPrefix ps →
      ∃ q v expected actual, (q, v) ∈ ps
        ∧ assocLookup schema.param_types q = some expected
        ∧ jsonTypeOf v = some actual ∧ actual ≠ expected
        ∧ e = typeMismatchError index method fieldPrefix q expected actual := by
  intro ps
  induction ps with
  | nil => intro h; simp [typeCheckErrors] at h
  | cons entry rest ih =>
      intro he
      unfold typeCheckErrors at he
      revert he
      cases hl : assocLookup schema.param_types entry.1 with
      | none =>
          intro he
          obtain ⟨q, v, exp, act, hmem, h1, h2, h3, h4⟩ := ih he
          exact ⟨q, v, exp, act, List.mem_cons_of_mem _ hmem, h1, h2, h3, h4⟩
      | some expected =>
          cases ht : jsonTypeOf entry.2 with
          | none =>
              intro he
              obtain ⟨q, v, exp, act, hmem, h1, h2, h3, h4⟩ := ih he
              exact ⟨q, v, exp, act, List.mem_cons_of_mem _ hmem, h1, h2, h3, h4⟩
          | some actual =>
              by_cases hne : actual ≠ expected
              · simp only [if_pos hne]
                intro he
                rcases List.mem_cons.1 he with heq | hrest2
                · exact ⟨entry.1, entry.2, expected, actual, by simp, hl, ht, hne, heq⟩
                · obtain ⟨q, v, exp, act, hmem, h1, h2, h3, h4⟩ := ih hrest2
                  exact ⟨q, v, exp, act, List.mem_cons_of_mem _ hmem, h1, h2, h3, h4⟩
              · simp only [if_neg hne]
                intro he
                obtain ⟨q, v, exp, act, hmem, h1, h2, h3, h4⟩ := ih he
                exact ⟨q, v, exp, act, List.mem_cons_of_mem _ hmem, h1, h2, h3, h4⟩

lemma mem_unknownParamWarnings_intro {schema : CommandSchema} {index : Nat}
    {method : String} {p : String} {v : Json} :
    ∀ {ps : List (String × Json)}, (p, v) ∈ ps →
      assocLookup schema.param_types p = none →
      p ∉ schema.required_params → p ∉ schema.optional_params →
      unknownParamWarning index method p ∈ unknownParamWarnings schema index method ps := by
  intro ps
  induction ps with
  | nil => intro h; cases h
  | cons entry rest ih =>
      intro hmem hl hnr hno
      rcases List.mem_cons.1 hmem with heq | hrest
      · subst heq
        simp only [unknownParamWarnings, hl]
        split
        · exact List.mem_cons_self _ _
        · rename_i hcond
          exact absurd (by simp_all) hcond
      · have hrec := ih hrest hl hnr hno
        unfold unknownParamWarnings
        cases hl2 : assocLookup schema.param_types entry.1 with
        | some _ => exact hrec
        | none =>
            by_cases hw : ¬schema.required_params.contains entry.1 = true
                ∧ ¬schema.optional_params.contains entry.1 = true
            · rw [if_pos hw]
              exact List.mem_cons_of_mem _ hrec
            · rw [if_neg hw]
              exact hrec

lemma assoc_value_unique {α : Type} {p : String} {v v' : α} :
    ∀ {ps : List (String × α)}, (ps.map Prod.fst).Nodup →
      (p, v) ∈ ps → (p, v') ∈ ps → v = v' := by
  intro ps
  induction ps with
  | nil => intro _ h; cases h
  | cons entry rest ih =>
      obtain ⟨k, w⟩ := entry
      intro hnd h1 h2
      rw [List.map_cons] at hnd
      have hk : k ∉ rest.map Prod.fst := (List.nodup_cons.1 hnd).1
      have hnd2 := (List.nodup_cons.1 hnd).2
      rcases List.mem_cons.1 h1 with he1 | hr1 <;> rcases List.mem_cons.1 h2 with he2 | hr2
      · have e1 := Prod.ext_iff.1 he1
        have e2 := Prod.ext_iff.1 he2
        exact e1.2.trans e2.2.symm
      · exfalso
        have hp : p = k := by simpa using (Prod.ext_iff.1 he1).1
        have hmm : p ∈ rest.map Prod.fst := List.mem_map_of_mem Prod.fst hr2
        exact hk (hp ▸ hmm)
      · exfalso
        have hp : p = k := by simpa using (Prod.ext_iff.1 he2).1
        have hmm : p ∈ rest.map Prod.fst := List.mem_map_of_mem Prod.fst hr1
        exact hk (hp ▸ hmm)
      · exact ih hnd2 hr1 hr2

/-- C4: for a command with a schema whose params is a JSON object, the
required-parameter pass of `validate_parameters` appends exactly one
`MissingParameter` error (whose message and field path name the parameter)
per required parameter absent from params — one per absent parameter, not
only the first — followed only by the type-check errors. -/
theorem c4_missing_required_params (cmd : CdpCommand) (schema : CommandSchema)
    (index : Nat) (fieldPrefix : String) (result : ValidationResult)
    (params : List (String × Json)) (hobj : cmd.params.asObj = some params) :
    ((CdpValidator.validate_parameters cmd schema index fieldPrefix result).errors
      = result.errors
        ++ (schema.required_params.filter (fun p => !(containsKey params p))).map
            (missingParamError index cmd.method fieldPrefix)
        ++ typeCheckErrors schema index cmd.method fieldPrefix params)
    ∧ ∀ p, p ∈ schema.required_params → containsKey params p = false →
        missingParamError index cmd.method fieldPrefix p
          ∈ (CdpValidator.validate_parameters cmd schema index fieldPrefix result).errors := by
  have hdec := validate_parameters_errors cmd schema index fieldPrefix result params hobj
  constructor
  · rw [hdec]; rfl
  · intro p hp habs
    rw [hdec]
    exact List.mem_append.2 (Or.inl (List.mem_append.2
      (Or.inr (mem_missingParamErrors_intro hp habs))))

/-- Witness for C4 at the mouse-event command with empty params: the error
for required parameter `x` is emitted, and all three required parameters
produce an error. -/
theorem c4_missing_required_params_witness :
    missingParamError 0 "Input.dispatchMouseEvent" "cdp_commands[0]" "x"
      ∈ (CdpValidator.validate_parameters mouseCmd (schemaOf "Input.dispatchMouseEvent")
          0 "cdp_commands[0]" ValidationResult.success).errors
    ∧ (CdpValidator.validate_parameters mouseCmd (schemaOf "Input.dispatchMouseEvent")
        0 "cdp_commands[0]" ValidationResult.success).errors.length = 3 := by
  refine ⟨(c4_missing_required_params mouseCmd (schemaOf "Input.dispatchMouseEvent")
    0 "cdp_commands[0]" ValidationResult.success [] rfl).2 "x" (by decide) rfl, ?_⟩
  rfl

/-- C5: for a command with a schema whose params object binds a declared
parameter to a value, `validate_parameters` emits a `TypeMismatch` error
whenever the value's JSON type differs from the declared type, and never
emits a `TypeMismatch` error located at a parameter bound to `null`. -/
theorem c5_type_mismatch (cmd : CdpCommand) (schema : CommandSchema)
    (index : Nat) (fieldPrefix : String) (result : ValidationResult)
    (params : List (String × Json)) (hobj : cmd.params.asObj = some params)
    (hnd : (params.map Prod.fst).Nodup) :
    (∀ p v expected actual, (p, v) ∈ params →
        assocLookup schema.param_types p = some expected →
        jsonTypeOf v = some actual → actual ≠ expected →
        typeMismatchError index cmd.method fieldPrefix p expected actual
          ∈ (CdpValidator.validate_parameters cmd schema index fieldPrefix result).errors)
    ∧ (∀ p, (p, Json.null) ∈ params →
        ∀ e ∈ (CdpValidator.validate_parameters cmd schema index fieldPrefix result).errors,
          e ∉ result.errors → e.error_type = ValidationErrorType.typeMismatch →
          e.location.field_path ≠ fieldPrefix ++ ".params." ++ p) := by
  have hdec := validate_parameters_errors cmd schema index fieldPrefix result params hobj
  constructor
  · intro p v expected actual hmem hl ht hne
    rw [hdec]
    exact List.mem_append.2 (Or.inr (mem_typeCheckErrors_intro hmem hl ht hne))
  · intro p hpnull e he hnotres htype heqpath
    rw [hdec] at he
    rcases List.mem_append.1 he with h1 | h2
    · rcases List.mem_append.1 h1 with ha | hb
      · exact hnotres ha
      · obtain ⟨q, _, _, rfl⟩ := mem_missingParamErrors_elim hb
        simp [missingParamError] at htype
    · obtain ⟨q, v, exp, act, hqv, hlq, htv, _, rfl⟩ := mem_typeCheckErrors_elim h2
      have hqp : q = p := strAppendCancel (fieldPrefix ++ ".params.") heqpath
      subst hqp
      have hv : v = Json.null := assoc_value_unique hnd hqv hpnull
      rw [hv] at htv
      simp [jsonTypeOf] at htv

/-- Witness for C5 at the navigation command whose `url` is a number: the
mismatch error for `url` is emitted. -/
theorem c5_type_mismatch_witness :
    typeMismatchError 0 "Page.navigate" "cdp_commands[0]" "url" ParamType.string ParamType.number
      ∈ (CdpValidator.validate_parameters navBadCmd (schemaOf "Page.navigate")
          0 "cdp_commands[0]" ValidationResult.success).errors :=
  (c5_type_mismatch navBadCmd (schemaOf "Page.navigate") 0 "cdp_commands[0]"
      ValidationResult.success [("url", Json.num 1), ("referrer", Json.null)] rfl (by decide)).1
    "url" (Json.num 1) ParamType.string ParamType.number (List.Mem.head _) rfl rfl (by decide)

/-- C7: a params-object entry that has no declared type and is neither
required nor optional produces the non-blocking pass-through warning, no
error is emitted at that parameter, and `add_warning` never changes
`is_valid`. -/
theorem c7_unknown_param_passthrough (cmd : CdpCommand) (schema : CommandSchema)
    (index : Nat) (fieldPrefix : String) (result : ValidationResult)
    (params : List (String × Json)) (p : String) (v : Json)
    (hobj : cmd.params.asObj = some params) (hmem : (p, v) ∈ params)
    (hnotype : assocLookup schema.param_types p = none)
    (hnr : p ∉ schema.required_params) (hno : p ∉ schema.optional_params) :
    (unknownParamWarning index cmd.method p
        ∈ (CdpValidator.validate_parameters cmd schema index fieldPrefix result).warnings)
    ∧ (∀ e ∈ (CdpValidator.validate_parameters cmd schema index fieldPrefix result).errors,
        e ∉ result.errors → e.location.field_path ≠ fieldPrefix ++ ".params." ++ p)
    ∧ (∀ (r : ValidationResult) (w : String), (r.add_warning w).is_valid = r.is_valid) := by
  refine ⟨?_, ?_, fun r w => rfl⟩
  · rw [validate_parameters_warnings cmd schema index fieldPrefix result params hobj]
    exact List.mem_append.2 (Or.inr (mem_unknownParamWarnings_intro hmem hnotype hnr hno))
  · intro e he hnotres heqpath
    rw [validate_parameters_errors cmd schema index fieldPrefix result params hobj] at he
    rcases List.mem_append.1 he with h1 | h2
    · rcases List.mem_append.1 h1 with ha | hb
      · exact hnotres ha
      · obtain ⟨q, hq, _, rfl⟩ := mem_missingParamErrors_elim hb
        have hqp : q = p := strAppendCancel (fieldPrefix ++ ".params.") heqpath
        exact hnr (hqp ▸ hq)
    · obtain ⟨q, v2, exp, act, _, hlq, _, _, rfl⟩ := mem_typeCheckErrors_elim h2
      have hqp : q = p := strAppendCancel (fieldPrefix ++ ".params.") heqpath
      rw [hqp] at hlq
      rw [hnotype] at hlq
      cases hlq

/-- Witness for C7 at the navigation command carrying an undeclared `foo`
parameter: the pass-through warning is emitted. -/
theorem c7_unknown_param_passthrough_witness :
    unknownParamWarning 0 "Page.navigate" "foo"
      ∈ (CdpValidator.validate_parameters navExtraCmd (schemaOf "Page.navigate")
          0 "cdp_commands[0]" ValidationResult.success).warnings :=
  (c7_unknown_param_passthrough navExtraCmd (schemaOf "Page.navigate") 0 "cdp_commands[0]"
      ValidationResult.success [("url", Json.str "https://example.com"), ("foo", Json.num 1)]
      "foo" (Json.num 1) rfl (List.Mem.tail _ (List.Mem.head _)) rfl (by decide) (by decide)).1

/-- C10: when a schema has no required parameters and the command's params
is not a JSON object, `validate_parameters` returns its input unchanged (no
error, no warning), and a script containing such a command is still reported
valid. -/
theorem c10_non_object_params_skipped :
    (∀ (cmd : CdpCommand) (schema : CommandSchema) (index : Nat) (fieldPrefix : String)
        (result : ValidationResult),
      cmd.params.asObj = none → schema.required_params = [] →
      CdpValidator.validate_parameters cmd schema index fieldPrefix result = result)
    ∧ (CdpValidator.new.validate_script screenshotStrScript ValidationResult.success).is_valid
        = true := by
  constructor
  · intro cmd schema index fieldPrefix result hno hreq
    unfold CdpValidator.validate_parameters
    rw [hno, hreq]
    rfl
  · rfl

/-- Witness for C10 at the screenshot command whose params is a string. -/
theorem c10_non_object_params_skipped_witness :
    CdpValidator.validate_parameters screenshotStrCmd (schemaOf "Page.captureScreenshot")
      3 "cdp_commands[3]" ValidationResult.success = ValidationResult.success :=
  c10_non_object_params_skipped.1 screenshotStrCmd (schemaOf "Page.captureScreenshot")
    3 "cdp_commands[3]" ValidationResult.success rfl rfl

/-- C3 counterexample: a script whose name and command list are both empty
gets two `MissingField` errors (one at `name`, one at `cdp_commands`), not
exactly one. -/
theorem c3_counterexample :
    emptyBothScript.cdp_commands = []
    ∧ (CdpValidator.new.validate_script emptyBothScript ValidationResult.success).errors
        = [nameMissingError, commandsMissingError] :=
  ⟨rfl, rfl⟩

/-- C3 (amended): for every script with an empty command list, validation
fails and the error list is exactly one `MissingField` error at
`cdp_commands`, preceded by a `MissingField` error at `name` when the name
is empty too. -/
theorem c3_empty_commands (s : CdpScript) (h : s.cdp_commands = []) :
    (CdpValidator.new.validate_script s ValidationResult.success).is_valid = false
    ∧ (CdpValidator.new.validate_script s ValidationResult.success).errors
        = (if s.name.isEmpty then [nameMissingError] else []) ++ [commandsMissingError] := by
  unfold CdpValidator.validate_script
  rw [h]
  by_cases hn : s.name.isEmpty <;> by_cases hd : s.description.isEmpty <;>
    simp [hn, hd, ValidationResult.success, ValidationResult.add_error,
      ValidationResult.add_warning] <;>
    first
      | rfl
      | (split <;> rfl)

/-- Witness for C3 (amended) at a script with a non-empty name and no
commands: exactly one error, at `cdp_commands`. -/
theorem c3_empty_commands_witness :
    (CdpValidator.new.validate_script noCommandsScript ValidationResult.success).is_valid = false
    ∧ (CdpValidator.new.validate_script noCommandsScript ValidationResult.success).errors
        = [commandsMissingError] := by
  have h := c3_empty_commands noCommandsScript rfl
  simpa [show noCommandsScript.name.isEmpty = false from rfl] using h

@[simp] lemma add_result_results (rep : ExecutionReport) (r : CommandResult) :
    (rep.add_result r).results = rep.results ++ [r] := rfl

@[simp] lemma add_result_successful (rep : ExecutionReport) (r : CommandResult) :
    (rep.add_result r).successful
      = rep.successful + (if r.status = .success then 1 else 0) := rfl

@[simp] lemma add_result_failed (rep : ExecutionReport) (r : CommandResult) :
    (rep.add_result r).failed = rep.failed + (if r.status = .failed then 1 else 0) := rfl

@[simp] lemma add_result_skipped (rep : ExecutionReport) (r : CommandResult) :
    (rep.add_result r).skipped = rep.skipped + (if r.status = .skipped then 1 else 0) := rfl

@[simp] lemma add_result_total_duration (rep : ExecutionReport) (r : CommandResult) :
    (rep.add_result r).total_duration = rep.total_duration + r.duration := rfl

lemma foldl_add_result_inv (rs : List CommandResult) :
    ∀ rep : ExecutionReport,
      rep.successful + rep.failed + rep.skipped = rep.results.length →
      rep.total_duration = (rep.results.map (fun r => r.duration)).sum →
      ((rs.foldl ExecutionReport.add_result rep).successful
          + (rs.foldl ExecutionReport.add_result rep).failed
          + (rs.foldl ExecutionReport.add_result rep).skipped
        = (rs.foldl ExecutionReport.add_result rep).results.length)
      ∧ (rs.foldl ExecutionReport.add_result rep).total_duration
        = ((rs.foldl ExecutionReport.add_result rep).results.map (fun r => r.duration)).sum := by
  induction rs with
  | nil => intro rep h1 h2; exact ⟨h1, h2⟩
  | cons r rest ih =>
      intro rep h1 h2
      refine ih (rep.add_result r) ?_ ?_
      · cases hs : r.status <;> simp [hs] <;> omega
      · simp [h2]

/-- C9: from a fresh report, any sequence of `add_result` calls keeps
`successful + failed + skipped` equal to the number of recorded results and
`total_duration` equal to the sum of the recorded durations. -/
theorem c9_report_counters_invariant (name : String) (total : Nat) (rs : List CommandResult) :
    ((rs.foldl ExecutionReport.add_result (ExecutionReport.new name total)).successful
        + (rs.foldl ExecutionReport.add_result (ExecutionReport.new name total)).failed
        + (rs.foldl ExecutionReport.add_result (ExecutionReport.new name total)).skipped
      = (rs.foldl ExecutionReport.add_result (ExecutionReport.new name total)).results.length)
    ∧ (rs.foldl ExecutionReport.add_result (ExecutionReport.new name total)).total_duration
      = ((rs.foldl ExecutionReport.add_result (ExecutionReport.new name total)).results.map
          (fun r => r.duration)).sum :=
  foldl_add_result_inv rs (ExecutionReport.new name total) rfl rfl

lemma runCommands_first_fail (exec : Nat → CdpCommand → CmdOutcome) :
    ∀ (cmds : List CdpCommand) (m i : Nat) (rep : ExecutionReport),
      m < cmds.length →
      (∀ j c, j < m → cmds.get? j = some c → (exec (i + j) c).isOk = true) →
      (∀ c, cmds.get? m = some c → (exec (i + m) c).isOk = false) →
      (runCommands exec cmds i rep).successful = rep.successful + m
      ∧ (runCommands exec cmds i rep).failed = rep.failed + 1
      ∧ (runCommands exec cmds i rep).skipped = rep.skipped
      ∧ (runCommands exec cmds i rep).results.length = rep.results.length + (m + 1)
      ∧ ∀ res ∈ (runCommands exec cmds i rep).results,
          res ∈ rep.results ∨ res.step ≤ i + m + 1 := by
  intro cmds
  induction cmds with
  | nil => intro m i rep hm; exact absurd hm (Nat.not_lt_zero m)
  | cons cmd rest ih =>
      intro m i rep hm hsucc hfail
      cases m with
      | zero =>
          have hf := hfail cmd rfl
          cases ho : exec (i + 0) cmd with
          | ok resp sf dur => rw [ho] at hf; simp [CmdOutcome.isOk] at hf
          | err msg dur =>
              have ho' : exec i cmd = .err msg dur := ho
              unfold runCommands
              rw [ho']
              refine ⟨by simp, by simp, by simp, by simp, ?_⟩
              intro res hres
              rw [add_result_results] at hres
              rcases List.mem_append.1 hres with hl | hr
              · exact Or.inl hl
              · rcases List.mem_singleton.1 hr with rfl
                exact Or.inr (show i + 1 ≤ i + 0 + 1 by omega)
      | succ m2 =>
          have hs0 := hsucc 0 cmd (Nat.succ_pos m2) rfl
          cases ho : exec (i + 0) cmd with
          | err msg dur => rw [ho] at hs0; simp [CmdOutcome.isOk] at hs0
          | ok resp sf dur =>
              have ho' : exec i cmd = .ok resp sf dur := ho
              unfold runCommands
              rw [ho']
              have hm2 : m2 < rest.length := by simpa using hm
              have hsucc2 : ∀ j c, j < m2 → rest.get? j = some c →
                  (exec (i + 1 + j) c).isOk = true := by
                intro j c hj hg
                have := hsucc (j + 1) c (Nat.succ_lt_succ hj) (by simpa using hg)
                rwa [show i + (j + 1) = i + 1 + j by omega] at this
              have hfail2 : ∀ c, rest.get? m2 = some c →
                  (exec (i + 1 + m2) c).isOk = false := by
                intro c hg
                have := hfail c (by simpa using hg)
                rwa [show i + (m2 + 1) = i + 1 + m2 by omega] at this
              obtain ⟨h1, h2, h3, h4, h5⟩ := ih m2 (i + 1) _ hm2 hsucc2 hfail2
              refine ⟨?_, ?_, ?_, ?_, ?_⟩
              · rw [h1]; simp; omega
              · rw [h2]; simp
              · rw [h3]; simp
              · rw [h4]; simp; omega
              · intro res hres
                rcases h5 res hres with hmem | hstep
                · rw [add_result_results] at hmem
                  rcases List.mem_append.1 hmem with hl | hr
                  · exact Or.inl hl
                  · rcases List.mem_singleton.1 hr with rfl
                    exact Or.inr (show i + 1 ≤ i + (m2 + 1) + 1 by omega)
                · exact Or.inr (by omega)

/-- C2: for a structurally valid script where command `k` (1-indexed) is the
first whose handler fails and all earlier commands succeed, `execute_script`
returns a report with exactly `k` results, `k - 1` successes, one failure,
no skips, and no result for any later command. -/
theorem c2_stop_on_first_failure (exec : Nat → CdpCommand → CmdOutcome)
    (script : CdpScript) (k : Nat)
    (hval : script.validate = Except.ok ())
    (hk1 : 1 ≤ k) (hkN : k ≤ script.cdp_commands.length)
    (hsucc : ∀ j, j < k - 1 → okAt exec script.cdp_commands j = true)
    (hfail : okAt exec script.cdp_commands (k - 1) = false) :
    ∃ rep, executeScript exec script = Except.ok rep
      ∧ rep.results.length = k ∧ rep.successful = k - 1 ∧ rep.failed = 1
      ∧ rep.skipped = 0 ∧ ∀ res ∈ rep.results, res.step ≤ k := by
  have hrun : executeScript exec script
      = Except.ok (runCommands exec script.cdp_commands 0
          (ExecutionReport.new script.name script.cdp_commands.length)) := by
    unfold executeScript
    rw [hval]
  have hm : k - 1 < script.cdp_commands.length := by omega
  have hsucc2 : ∀ j c, j < k - 1 → script.cdp_commands.get? j = some c →
      (exec (0 + j) c).isOk = true := by
    intro j c hj hg
    have := hsucc j hj
    unfold okAt at this
    rw [hg] at this
    rwa [Nat.zero_add]
  have hfail2 : ∀ c, script.cdp_commands.get? (k - 1) = some c →
      (exec (0 + (k - 1)) c).isOk = false := by
    intro c hg
    unfold okAt at hfail
    rw [hg] at hfail
    rwa [Nat.zero_add]
  obtain ⟨h1, h2, h3, h4, h5⟩ := runCommands_first_fail exec script.cdp_commands (k - 1) 0
    (ExecutionReport.new script.name script.cdp_commands.length) hm hsucc2 hfail2
  refine ⟨_, hrun, ?_, ?_, ?_, ?_, ?_⟩
  · rw [h4]; simp [ExecutionReport.new]; omega
  · rw [h1]; simp [ExecutionReport.new]
  · rw [h2]; simp [ExecutionReport.new]
  · rw [h3]; simp [ExecutionReport.new]
  · intro res hres
    rcases h5 res hres with hmem | hstep
    · simp [ExecutionReport.new] at hmem
    · omega

/-- Witness for C2 at the three-command script whose second command fails:
the report has two results, one success, one failure, nothing skipped. -/
theorem c2_stop_on_first_failure_witness :
    ∃ rep, executeScript demoExecFail2 demoScript3 = Except.ok rep
      ∧ rep.results.length = 2 ∧ rep.successful = 2 - 1 ∧ rep.failed = 1
      ∧ rep.skipped = 0 ∧ ∀ res ∈ rep.results, res.step ≤ 2 :=
  c2_stop_on_first_failure demoExecFail2 demoScript3 2 rfl (by decide) (by decide)
    (by decide) (by decide)

lemma validateMethodsFrom_ok_iff :
    ∀ (cmds : List CdpCommand) (i : Nat),
      validateMethodsFrom cmds i = Except.ok ()
        ↔ ∀ c ∈ cmds, c.method.isEmpty = false ∧ c.method.toList.contains '.' = true := by
  intro cmds
  induction cmds with
  | nil => intro i; simp [validateMethodsFrom]
  | cons cmd rest ih =>
      intro i
      unfold validateMethodsFrom
      by_cases he : cmd.method.isEmpty = true
      · rw [if_pos he]
        constructor
        · intro h; simp at h
        · intro h
          exact absurd he (by simp [(h cmd (List.mem_cons_self _ _)).1])
      · by_cases hc : cmd.method.toList.contains '.' = true
        · rw [if_neg he, if_neg (not_not_intro hc)]
          rw [ih (i + 1)]
          constructor
          · intro h c hm
            rcases List.mem_cons.1 hm with rfl | hr
            · exact ⟨by simpa using he, hc⟩
            · exact h c hr
          · intro h c hm
            exact h c (List.mem_cons_of_mem _ hm)
        · rw [if_neg he, if_pos hc]
          constructor
          · intro h; simp at h
          · intro h
            exact absurd (h cmd (List.mem_cons_self _ _)).2 hc

lemma validate_ok_iff (s : CdpScript) :
    s.validate = Except.ok ()
      ↔ (s.name.isEmpty = false ∧ s.cdp_commands.isEmpty = false
          ∧ ∀ c ∈ s.cdp_commands, c.method.isEmpty = false
              ∧ c.method.toList.contains '.' = true) := by
  unfold CdpScript.validate
  by_cases hn : s.name.isEmpty = true
  · rw [if_pos hn]
    constructor
    · intro h; simp at h
    · intro h; exact absurd hn (by simp [h.1])
  · by_cases hc : s.cdp_commands.isEmpty = true
    · rw [if_neg hn, if_pos hc]
      constructor
      · intro h; simp at h
      · intro h; exact absurd hc (by simp [h.2.1])
    · rw [if_neg hn, if_neg hc]
      rw [validateMethodsFrom_ok_iff]
      constructor
      · intro h
        exact ⟨by simpa using hn, by simpa using hc, h⟩
      · intro h; exact h.2.2

/-- C8: `execute_script` returns `Ok` exactly when the script passes the
structural check (non-empty name, non-empty command list, every method
non-empty and containing a dot); any hard error it returns is a structural
validation error, so per-command failures never surface as `Err`. -/
theorem c8_hard_error_iff_structural (exec : Nat → CdpCommand → CmdOutcome) (script : CdpScript) :
    ((∃ rep, executeScript exec script = Except.ok rep)
      ↔ (script.name.isEmpty = false ∧ script.cdp_commands.isEmpty = false
          ∧ ∀ c ∈ script.cdp_commands, c.method.isEmpty = false
              ∧ c.method.toList.contains '.' = true))
    ∧ ∀ e, executeScript exec script = Except.error e → script.validate = Except.error e := by
  constructor
  · constructor
    · rintro ⟨rep, hrep⟩
      cases hv : script.validate with
      | error e =>
          unfold executeScript at hrep
          rw [hv] at hrep
          cases hrep
      | ok u =>
          cases u
          exact (validate_ok_iff script).1 hv
    · intro h
      have hok := (validate_ok_iff script).2 h
      refine ⟨runCommands exec script.cdp_commands 0
        (ExecutionReport.new script.name script.cdp_commands.length), ?_⟩
      unfold executeScript
      rw [hok]
  · intro e he
    cases hv : script.validate with
    | error e2 =>
        unfold executeScript at he
        rw [hv] at he
        injection he with h2
        rw [h2]
    | ok u =>
        cases u
        unfold executeScript at he
        rw [hv] at he
        simp at he

/-- Witness for C8: the structurally valid demo script yields an `Ok`
report even under an oracle whose second command fails. -/
theorem c8_hard_error_iff_structural_witness :
    ∃ rep, executeScript demoExecFail2 demoScript3 = Except.ok rep :=
  (c8_hard_error_iff_structural demoExecFail2 demoScript3).1.2 ⟨rfl, rfl, by decide⟩

lemma cmd_round_trip (c : CdpCommand) : CdpCommand.fromJson c.toJson = some c := by
  obtain ⟨m, p, sa, d⟩ := c
  cases sa <;> cases d <;>
    simp [CdpCommand.toJson, CdpCommand.fromJson, assocLookup, parseOptString]

lemma cmdList_round_trip (l : List CdpCommand) :
    parseCommandList (l.map CdpCommand.toJson) = some l := by
  induction l with
  | nil => rfl
  | cons c rest ih => simp [parseCommandList, cmd_round_trip, ih]

lemma strList_round_trip (l : List String) :
    parseStringList (l.map Json.str) = some l := by
  induction l with
  | nil => rfl
  | cons s rest ih => simp [parseStringList, ih]

lemma strList_round_trip_cons (h : String) (t : List String) :
    parseStringList (Json.str h :: t.map Json.str) = some (h :: t) := by
  simpa using strList_round_trip (h :: t)

/-- C6: serializing a `CdpScript` and parsing the result back yields the
original script in every field; optional fields that are `None` (`created`,
`author`, `save_as`, `description`) are not emitted in the serialized object
and so remain `None` after re-parsing. -/
theorem c6_round_trip (s : CdpScript) :
    CdpScript.fromJson s.toJson = some s
    ∧ (∀ fields, s.toJson = Json.obj fields →
        (s.created = none → containsKey fields "created" = false)
        ∧ (s.author = none → containsKey fields "author" = false))
    ∧ (∀ (c : CdpCommand) (fields : List (String × Json)), c.toJson = Json.obj fields →
        (c.save_as = none → containsKey fields "save_as" = false)
        ∧ (c.description = none → containsKey fields "description" = false)) := by
  refine ⟨?_, ?_, ?_⟩
  · obtain ⟨n, d, cr, au, ts, cmds⟩ := s
    cases cr <;> cases au <;> cases ts <;>
      simp [CdpScript.toJson, CdpScript.fromJson, assocLookup, parseOptString, parseTags,
        cmdList_round_trip, strList_round_trip, strList_round_trip_cons]
  · obtain ⟨n, d, cr, au, ts, cmds⟩ := s
    intro fields hf
    cases cr <;> cases au <;> cases ts <;>
      (simp [CdpScript.toJson] at hf; subst hf;
       constructor <;> intro hnone <;> simp_all [containsKey, assocLookup])
  · intro c fields hf
    obtain ⟨m, p, sa, d⟩ := c
    cases sa <;> cases d <;>
      (simp [CdpCommand.toJson] at hf; subst hf;
       constructor <;> intro hnone <;> simp_all [containsKey, assocLookup])

lemma hasHandler_mem_handled {m : String} (h : hasHandler m = true) :
    m ∈ (["Page.navigate", "Page.captureScreenshot", "Page.reload", "Page.goBack",
      "Page.goForward", "Runtime.evaluate", "Input.insertText", "Input.dispatchMouseEvent",
      "Input.dispatchKeyEvent", "Network.getCookies", "Network.setCookie",
      "Network.deleteCookies", "Emulation.setGeolocationOverride",
      "Emulation.setDeviceMetricsOverride"] : List String) := by
  unfold hasHandler executeCommand at h
  split at h
  case h_2 => exact absurd h (by simp)
  rename_i heq
  split at heq
  all_goals simp_all

/-- C1 counterexample: `Emulation.clearGeolocationOverride` is in the
validator's registry — `validate_command` accepts it with no error at all —
yet `execute_command` has no handler for it and fails with the
`Unsupported CDP method` error even under a handler oracle that always
succeeds. -/
theorem c1_counterexample :
    CdpValidator.new.valid_commands.contains "Emulation.clearGeolocationOverride" = true
    ∧ CdpValidator.new.validate_command clearGeoCmd 0 ValidationResult.success
        = ValidationResult.success
    ∧ hasHandler "Emulation.clearGeolocationOverride" = false
    ∧ executeCommand (fun _ _ => .ok (Json.null, none)) clearGeoCmd
        = Except.error "Unsupported CDP method: Emulation.clearGeolocationOverride" :=
  ⟨rfl, rfl, rfl, rfl⟩

/-- C1 (amended): the executor's dispatch table is a strict subset of the
validator's registry — every method with a handler is accepted by the
validator, and the validator accepts exactly the handled methods plus
`Emulation.clearGeolocationOverride`, which has no handler. -/
theorem c1_registry_dispatch_agreement (m : String) :
    (hasHandler m = true → CdpValidator.new.valid_commands.contains m = true)
    ∧ (CdpValidator.new.valid_commands.contains m = true
        ↔ (hasHandler m = true ∨ m = "Emulation.clearGeolocationOverride")) := by
  constructor
  · intro h
    have hm := hasHandler_mem_handled h
    fin_cases hm <;> rfl
  · constructor
    · intro h
      have hm : m ∈ CdpValidator.new.valid_commands := by simpa using h
      fin_cases hm <;> simp [hasHandler, executeCommand]
    · rintro (h | rfl)
      · have hm := hasHandler_mem_handled h
        fin_cases hm <;> rfl
      · rfl

/-- Witness for C1 (amended) at a handled method. -/
theorem c1_registry_dispatch_agreement_witness :
    hasHandler "Page.reload" = true
    ∧ CdpValidator.new.valid_commands.contains "Page.reload" = true :=
  ⟨rfl, (c1_registry_dispatch_agreement "Page.reload").1 rfl⟩

/-- Witness for C6 at a fully populated concrete script. -/
theorem c6_round_trip_witness :
    CdpScript.fromJson demoScriptFull.toJson = some demoScriptFull :=
  (c6_round_trip demoScriptFull).1
